import Mathlib

/-!
Verification development for the Boundless foundry template publisher app
(`apps/src/main.rs`). The orchestration function `run` is shallowly embedded
as a function of an oracle `World` describing the outcomes of every external
call (market SDK, storage provider, executor, ledger transport); it returns
the run's result together with the trace of external calls it performed.
External SDK behaviour that the repository only calls into is modelled from
the specification and marked as such.
-/

deriving instance DecidableEq for Except

namespace Boundless

/-- Byte strings are lists of byte values. -/
abbrev Bytes := List Nat

/-- Content-address URLs returned by the storage provider, abstracted to tokens. -/
abbrev Url := Nat

/-- Request identifiers issued by the proof market. -/
abbrev RequestId := Nat

/-- Transaction hashes, abstracted to tokens. -/
abbrev TxHash := Nat

/-- Big-endian byte rendering of a natural number into `n` bytes
(the last byte is the least significant one). -/
def beBytes : Nat → Nat → List Nat
  | 0, _ => []
  | n + 1, x => beBytes n (x / 256) ++ [x % 256]

/-- Solidity ABI encoding of a `U256` value: 32 big-endian bytes
(`input.abi_encode()` at `main.rs:102` and `main.rs:112`). -/
def abiEncodeU256 (x : Nat) : Bytes := beBytes 32 x

/-- Big-endian interpretation of a byte string as a number
(`U256::from_be_slice` at `main.rs:183`). -/
def fromBeBytes (bs : Bytes) : Nat := bs.foldl (fun acc b => acc * 256 + b) 0

/-- Ceiling division as in Rust `u64::div_ceil` (`main.rs:120`). -/
def divCeil (a b : Nat) : Nat := a / b + if a % b = 0 then 0 else 1

/-- Abstract token standing for the guest ELF binary `IS_EVEN_ELF`; its byte
content is an external artifact, only its identity matters here. -/
def IS_EVEN_ELF : Nat := 0

/-- Abstract token standing for the guest image id `IS_EVEN_ID`. -/
def IS_EVEN_ID : Nat := 1

/-- Timeout in seconds for the EVM RPC transaction to be confirmed
(`main.rs:24`, `Duration::from_secs(3)`). -/
def TX_TIMEOUT : Nat := 3

/-- Wei value of `parse_ether("0.001")` (`main.rs:151`). -/
def WEI_0_001 : Nat := 1000000000000000

/-- Wei value of `parse_ether("0.002")` (`main.rs:156`). -/
def WEI_0_002 : Nat := 2000000000000000

/-- Result of the dry-run executor (`risc0_zkvm::SessionInfo`): the `po2`
sizes of the executed segments and the journal bytes. -/
structure SessionInfo where
  segments : List Nat
  journal : Bytes
deriving DecidableEq, Repr

/-- Total cycle count of a session: the sum of `1 << po2` over its segments
(`main.rs:115`-`119`). -/
def cycleCount (s : SessionInfo) : Nat := (s.segments.map fun p => 2 ^ p).sum

/-- Acceptance predicate of a proving request (`boundless_market::contracts::Predicate`). -/
inductive Predicate where
  | digestMatch (d : Nat)
  | prefixMatch (b : Bytes)
deriving DecidableEq, Repr

/-- Requirements of a proving request: the image id and the journal predicate
(`Requirements::new(IS_EVEN_ID, Predicate::digest_match(..))`, `main.rs:139`-`142`). -/
structure Requirements where
  imageId : Nat
  predicate : Predicate
deriving DecidableEq, Repr

/-- Reverse-Dutch-auction offer terms (`boundless_market::contracts::Offer`). -/
structure Offer where
  minPrice : Nat
  maxPrice : Nat
  biddingStart : Nat
  rampUpPeriod : Nat
  timeout : Nat
  lockinStake : Nat
deriving DecidableEq, Repr

/-- Modelled from the spec: the SDK's `Offer::default()`, all fields zero. -/
def Offer.default : Offer :=
  { minPrice := 0, maxPrice := 0, biddingStart := 0, rampUpPeriod := 0,
    timeout := 0, lockinStake := 0 }

/-- Modelled from the spec: the SDK's `Offer::with_min_price_per_mcycle`
sets `min_price = min_per_mcycle * ceil(cycle_count / 1_000_000)`, where the
caller passes the already-ceiled megacycle count (`main.rs:150`-`153`). -/
def Offer.withMinPricePerMcycle (o : Offer) (pricePerMcycle mcycles : Nat) : Offer :=
  { o with minPrice := pricePerMcycle * mcycles }

/-- Modelled from the spec: the SDK's `Offer::with_max_price_per_mcycle`,
analogous to the minimum price (`main.rs:155`-`158`). -/
def Offer.withMaxPricePerMcycle (o : Offer) (pricePerMcycle mcycles : Nat) : Offer :=
  { o with maxPrice := pricePerMcycle * mcycles }

/-- Modelled from the spec: the SDK's `Offer::with_timeout` (`main.rs:163`). -/
def Offer.withTimeout (o : Offer) (t : Nat) : Offer :=
  { o with timeout := t }

/-- Offer built by `run` (`main.rs:115`-`120` and `main.rs:143`-`164`): the
megacycle count is the ceiling of the cycle count over one million, and both
prices are per-megacycle prices scaled by it; the request timeout is 1000
blocks. The two per-megacycle prices are the parameters that `main.rs` fixes
to `parse_ether("0.001")` and `parse_ether("0.002")`. -/
def pricedOffer (minPerMcycle maxPerMcycle cycles : Nat) : Offer :=
  let mcyclesCount := divCeil cycles 1000000
  ((Offer.default.withMinPricePerMcycle minPerMcycle mcyclesCount).withMaxPricePerMcycle
      maxPerMcycle mcyclesCount).withTimeout 1000

/-- Input reference of a proving request (`boundless_market::contracts::Input`):
either a URL or inline bytes. -/
inductive Input where
  | url (u : Url)
  | inline (b : Bytes)
deriving DecidableEq, Repr

/-- A proving request (`boundless_market::contracts::ProvingRequest`) as built
at `main.rs:136`-`164`. -/
structure ProvingRequest where
  imageUrl : Url
  input : Input
  requirements : Requirements
  offer : Offer
deriving DecidableEq, Repr

/-- Errors of the fulfillment wait. Modelled from the spec (§4.3): the wait
terminates with fulfillment, with `Expired` when the request's own offer
timeout elapses, or with `DeadlineExceeded` when a caller-provided deadline
is reached first. -/
inductive WaitError where
  | expired
  | deadlineExceeded
deriving DecidableEq, Repr

/-- Marketplace behaviour for one request, as seen by the fulfillment wait:
the time at which fulfillment becomes observable (if ever), the time at which
the request's own offer timeout elapses, and the journal and seal bytes the
market returns on fulfillment. -/
structure MarketBehavior where
  fulfilledAt : Option Nat
  expiresAt : Nat
  journal : Bytes
  sealBytes : Bytes
deriving DecidableEq, Repr

/-- Modelled from the spec: `wait_for_request_fulfillment` of the market SDK
(§4.3), whose implementation is not part of this repository. It polls at the
given cadence until (a) fulfillment is observed before the request's own
expiry and before the optional caller deadline, (b) the expiry elapses first
(`Expired`), or (c) the caller deadline is reached first (`DeadlineExceeded`).
The poll interval sets the cadence only and does not change the outcome. -/
def waitForRequestFulfillment (m : MarketBehavior) (_pollInterval : Nat)
    (deadline : Option Nat) : Except WaitError (Bytes × Bytes) :=
  match m.fulfilledAt with
  | some tf =>
    if tf ≤ m.expiresAt then
      match deadline with
      | none => .ok (m.journal, m.sealBytes)
      | some d => if tf ≤ d then .ok (m.journal, m.sealBytes) else .error .deadlineExceeded
    else
      match deadline with
      | none => .error .expired
      | some d => if d < m.expiresAt then .error .deadlineExceeded else .error .expired
  | none =>
    match deadline with
    | none => .error .expired
    | some d => if d < m.expiresAt then .error .deadlineExceeded else .error .expired

/-- Errors of `run`, one constructor per fallible step, carrying the `anyhow`
context string the code attaches where it attaches one (`main.rs:191`,
`main.rs:197`, `main.rs:205`). -/
inductive RunError where
  | client (e : String)
  | uploadImage (e : String)
  | uploadInput (e : String)
  | execute (e : String)
  | submit (e : String)
  | wait (e : WaitError)
  | broadcast (ctx : String) (e : String)
  | confirm (ctx : String) (e : String)
  | readBack (ctx : String) (e : String)
deriving DecidableEq, Repr

/-- External calls performed by `run`, in the order they happen, with the
data the code passes to each. `logTxHash` records the tracing log of the
broadcast transaction hash (`main.rs:192`). -/
inductive Event where
  | uploadImageCall
  | uploadInputCall (bytes : Bytes)
  | executeCall (image : Nat) (bytes : Bytes)
  | submitCall (req : ProvingRequest)
  | waitCall (requestId : RequestId) (pollInterval : Nat) (deadline : Option Nat)
  | buildSetCall (value : Nat) (sealBytes : Bytes)
  | broadcastCall (value : Nat) (sealBytes : Bytes)
  | logTxHash (h : TxHash)
  | confirmCall (txHash : TxHash) (timeout : Nat)
  | readBackCall
deriving DecidableEq, Repr

/-- Settlement-phase calls: building, broadcasting, or confirming the
consumer-contract transaction. -/
def Event.isSettlementPhase : Event → Bool
  | .uploadImageCall => false
  | .uploadInputCall _ => false
  | .executeCall _ _ => false
  | .submitCall _ => false
  | .waitCall _ _ _ => false
  | .buildSetCall _ _ => true
  | .broadcastCall _ _ => true
  | .logTxHash _ => false
  | .confirmCall _ _ => true
  | .readBackCall => false

/-- Invariants every event of a `run` trace satisfies: input bytes passed to
the upload and to the executor are the ABI encoding of the caller's input,
the executed image is the guest ELF, the fulfillment wait is invoked with a
5-second poll interval and no deadline, and the confirmation wait uses the
fixed transaction timeout. -/
def eventWellFormed (input : Nat) : Event → Bool
  | .uploadImageCall => true
  | .uploadInputCall b => b == abiEncodeU256 input
  | .executeCall im b => im == IS_EVEN_ELF && b == abiEncodeU256 input
  | .submitCall _ => true
  | .waitCall _ p d => p == 5 && d == none
  | .buildSetCall _ _ => true
  | .broadcastCall _ _ => true
  | .logTxHash _ => true
  | .confirmCall _ t => t == TX_TIMEOUT
  | .readBackCall => true

/-- Number of read-back calls in a trace. -/
def readBackCount (tr : List Event) : Nat :=
  (tr.filter fun e =>
    match e with
    | .readBackCall => true
    | _ => false).length

/-- Request built by `run` at `main.rs:136`-`164` once the uploads returned
`imageUrl` and `inputUrl` and the dry run returned `si`: the image URL, the
input by URL, the requirements binding `IS_EVEN_ID` to the digest of the
dry-run journal, and the priced offer. The digest function is the oracle's,
standing for `risc0_zkvm::sha::Digestible::digest`. -/
def builtRequest (digestFn : Bytes → Nat) (imageUrl inputUrl : Url)
    (si : SessionInfo) : ProvingRequest :=
  { imageUrl := imageUrl
    input := Input.url inputUrl
    requirements :=
      { imageId := IS_EVEN_ID
        predicate := Predicate.digestMatch (digestFn si.journal) }
    offer := pricedOffer WEI_0_001 WEI_0_002 (cycleCount si) }

/-- Oracle describing the outcome of every external call `run` makes: client
construction, the two uploads, the dry-run executor (a function of image and
input bytes), the journal digest function, request submission, the market's
fulfillment behaviour, transaction send, confirmation watch, and the
read-back `get`. -/
structure World where
  clientResult : Except String Unit
  uploadImageResult : Except String Url
  uploadInputResult : Except String Url
  executeResult : Nat → Bytes → Except String SessionInfo
  digestFn : Bytes → Nat
  submitResult : Except String RequestId
  market : MarketBehavior
  sendResult : Except String TxHash
  watchResult : Except String Unit
  getResult : Except String Nat

/-- Shallow embedding of `run` (`main.rs:80`-`214`): each external call is
answered by the world oracle and recorded in the trace; any failure aborts
the run with the corresponding error, mirroring the `?` propagation of the
source. -/
def run (w : World) (input : Nat) : Except RunError Unit × List Event :=
  match w.clientResult with
  | .error e => (.error (.client e), [])
  | .ok _ =>
    let t1 := [Event.uploadImageCall]
    match w.uploadImageResult with
    | .error e => (.error (.uploadImage e), t1)
    | .ok imageUrl =>
      let encodedInput := abiEncodeU256 input
      let t2 := t1 ++ [Event.uploadInputCall encodedInput]
      match w.uploadInputResult with
      | .error e => (.error (.uploadInput e), t2)
      | .ok inputUrl =>
        let t3 := t2 ++ [Event.executeCall IS_EVEN_ELF (abiEncodeU256 input)]
        match w.executeResult IS_EVEN_ELF (abiEncodeU256 input) with
        | .error e => (.error (.execute e), t3)
        | .ok sessionInfo =>
          let requiredJournal := sessionInfo.journal
          let request := builtRequest w.digestFn imageUrl inputUrl sessionInfo
          let t4 := t3 ++ [Event.submitCall request]
          match w.submitResult with
          | .error e => (.error (.submit e), t4)
          | .ok requestId =>
            let t5 := t4 ++ [Event.waitCall requestId 5 none]
            match waitForRequestFulfillment w.market 5 none with
            | .error e => (.error (.wait e), t5)
            | .ok (_ignoredReturnedJournal, sealBytes) =>
              let encodedNumber := fromBeBytes requiredJournal
              let t6 := t5 ++ [Event.buildSetCall encodedNumber sealBytes]
              let t7 := t6 ++ [Event.broadcastCall encodedNumber sealBytes]
              match w.sendResult with
              | .error e => (.error (.broadcast "failed to broadcast tx" e), t7)
              | .ok txHash =>
                let t8 := t7 ++ [Event.logTxHash txHash, Event.confirmCall txHash TX_TIMEOUT]
                match w.watchResult with
                | .error e => (.error (.confirm "failed to confirm tx" e), t8)
                | .ok _ =>
                  let t9 := t8 ++ [Event.readBackCall]
                  match w.getResult with
                  | .error e => (.error (.readBack "failed to get number" e), t9)
                  | .ok _number => (.ok (), t9)

/-- Values passed as the first argument of the consumer contract's `set`
call across a trace (the settled values). -/
def settledValues (tr : List Event) : List Nat :=
  tr.filterMap fun e =>
    match e with
    | .broadcastCall v _ => some v
    | _ => none

/-- Requests passed to `submit_request` across a trace. -/
def submittedRequests (tr : List Event) : List ProvingRequest :=
  tr.filterMap fun e =>
    match e with
    | .submitCall r => some r
    | _ => none

/-- Concrete world in which every external call succeeds: the dry run yields
journal `[4]` (so the settled value is 4), the market returns journal `[9]`
and seal `[5]`, and the read-back `get` returns 7. -/
def wHappy : World :=
  { clientResult := .ok ()
    uploadImageResult := .ok 10
    uploadInputResult := .ok 11
    executeResult := fun _ _ => .ok { segments := [1], journal := [4] }
    digestFn := fromBeBytes
    submitResult := .ok 77
    market := { fulfilledAt := some 1, expiresAt := 100, journal := [9], sealBytes := [5] }
    sendResult := .ok 42
    watchResult := .ok ()
    getResult := .ok 7 }

/-- Variant of `wHappy` whose market returns a different journal `[8]`. -/
def wHappy2 : World :=
  { wHappy with
    market := { fulfilledAt := some 1, expiresAt := 100, journal := [8], sealBytes := [5] } }

/-- Variant of `wHappy` in which the request is never fulfilled and its offer
timeout elapses. -/
def wExpired : World :=
  { wHappy with
    market := { fulfilledAt := none, expiresAt := 100, journal := [9], sealBytes := [5] } }

/-- Variant of `wHappy` in which the dry-run executor fails. -/
def wExecFail : World :=
  { wHappy with executeResult := fun _ _ => .error "dry run failed" }

/-- Variant of `wHappy` in which transaction confirmation times out. -/
def wConfirmTimeoutA : World :=
  { wHappy with watchResult := .error "watch timed out" }

/-- Variant of `wConfirmTimeoutA` with a different broadcast transaction hash. -/
def wConfirmTimeoutB : World :=
  { wConfirmTimeoutA with sendResult := .ok 43 }

end Boundless

namespace Boundless

/-- Ceiling division over one million is monotone. -/
theorem divCeil_million_mono {a a' : Nat} (h : a ≤ a') :
    divCeil a 1000000 ≤ divCeil a' 1000000 := by
  unfold divCeil
  split <;> split <;> omega

/-- C6 counterexample: at 2,500,000 cycles with `max_per_mcycle = 2000` the
offer's maximum price is 2000 * ceil(2.5) = 6000, not the 5000 the claim
states (5000 would be the price without the megacycle ceiling). -/
theorem pricedOffer_example_max_price_not_5000 :
    (pricedOffer 1000 2000 2500000).maxPrice = 6000 ∧ (6000 : Nat) ≠ 5000 := by
  refine ⟨by decide, by decide⟩

/-- C6 amended: the offer's minimum price equals `min_per_mcycle` times the
ceiling of the cycle count over one million, the maximum price analogously,
and for 2,500,000 cycles with per-megacycle prices 1000 and 2000 the offer
prices are 3000 and 6000. -/
theorem pricedOffer_price_formula (minPerMcycle maxPerMcycle cycles : Nat) :
    (pricedOffer minPerMcycle maxPerMcycle cycles).minPrice =
      minPerMcycle * divCeil cycles 1000000 ∧
    (pricedOffer minPerMcycle maxPerMcycle cycles).maxPrice =
      maxPerMcycle * divCeil cycles 1000000 ∧
    (pricedOffer 1000 2000 2500000).minPrice = 3000 ∧
    (pricedOffer 1000 2000 2500000).maxPrice = 6000 :=
  ⟨rfl, rfl, by decide, by decide⟩

/-- C7: whenever the per-megacycle prices are ordered, the priced offer has
`min_price ≤ max_price`, and both prices are monotonically non-decreasing in
the cycle count. -/
theorem pricedOffer_ordered_and_monotone (minPerMcycle maxPerMcycle cycles cycles' : Nat)
    (hp : minPerMcycle ≤ maxPerMcycle) (hc : cycles ≤ cycles') :
    (pricedOffer minPerMcycle maxPerMcycle cycles).minPrice ≤
      (pricedOffer minPerMcycle maxPerMcycle cycles).maxPrice ∧
    (pricedOffer minPerMcycle maxPerMcycle cycles).minPrice ≤
      (pricedOffer minPerMcycle maxPerMcycle cycles').minPrice ∧
    (pricedOffer minPerMcycle maxPerMcycle cycles).maxPrice ≤
      (pricedOffer minPerMcycle maxPerMcycle cycles').maxPrice := by
  refine ⟨Nat.mul_le_mul_right _ hp, ?_, ?_⟩ <;>
    exact Nat.mul_le_mul_left _ (divCeil_million_mono hc)

/-- C7 witness at concrete prices 1000 ≤ 2000 and cycle counts 2500000 ≤ 3500000. -/
theorem pricedOffer_ordered_and_monotone_witness :
    (pricedOffer 1000 2000 2500000).minPrice ≤ (pricedOffer 1000 2000 2500000).maxPrice ∧
    (pricedOffer 1000 2000 2500000).minPrice ≤ (pricedOffer 1000 2000 3500000).minPrice ∧
    (pricedOffer 1000 2000 2500000).maxPrice ≤ (pricedOffer 1000 2000 3500000).maxPrice :=
  pricedOffer_ordered_and_monotone 1000 2000 2500000 3500000 (by decide) (by decide)

/-- Helper: once the run reaches a successful fulfillment wait, the settled
values of its trace are exactly the big-endian value of the dry-run journal,
whatever the settlement-phase oracles answer. -/
theorem run_settled_after_fulfillment (w : World) (input : Nat) (u1 u2 : Url)
    (si : SessionInfo) (rid : RequestId) (j s : Bytes)
    (hc : w.clientResult = .ok ())
    (hi : w.uploadImageResult = .ok u1)
    (hn : w.uploadInputResult = .ok u2)
    (hx : w.executeResult IS_EVEN_ELF (abiEncodeU256 input) = .ok si)
    (hs : w.submitResult = .ok rid)
    (hw : waitForRequestFulfillment w.market 5 none = .ok (j, s)) :
    settledValues (run w input).2 = [fromBeBytes si.journal] := by
  simp only [run, hc, hi, hn, hx, hs, hw]
  rcases w.sendResult with e | h
  · simp [settledValues]
  · rcases w.watchResult with e | _
    · simp [settledValues]
    · rcases w.getResult with e | v <;> simp [settledValues]

/-- C1: the value settled on chain is computed solely from the dry-run
journal; two runs that reach fulfillment with differing marketplace-returned
journals but agreeing dry-run journals settle the same value. -/
theorem settled_value_independent_of_market_journal
    (w1 w2 : World) (input : Nat) (u1 v1 u2 v2 : Url) (si1 si2 : SessionInfo)
    (r1 r2 : RequestId) (j1 j2 s1 s2 : Bytes)
    (hc1 : w1.clientResult = .ok ()) (hc2 : w2.clientResult = .ok ())
    (hi1 : w1.uploadImageResult = .ok u1) (hi2 : w2.uploadImageResult = .ok v1)
    (hn1 : w1.uploadInputResult = .ok u2) (hn2 : w2.uploadInputResult = .ok v2)
    (hx1 : w1.executeResult IS_EVEN_ELF (abiEncodeU256 input) = .ok si1)
    (hx2 : w2.executeResult IS_EVEN_ELF (abiEncodeU256 input) = .ok si2)
    (hjournal : si1.journal = si2.journal)
    (hs1 : w1.submitResult = .ok r1) (hs2 : w2.submitResult = .ok r2)
    (hw1 : waitForRequestFulfillment w1.market 5 none = .ok (j1, s1))
    (hw2 : waitForRequestFulfillment w2.market 5 none = .ok (j2, s2))
    (_hdiff : j1 ≠ j2) :
    settledValues (run w1 input).2 = [fromBeBytes si1.journal] ∧
    settledValues (run w2 input).2 = [fromBeBytes si2.journal] ∧
    settledValues (run w1 input).2 = settledValues (run w2 input).2 := by
  have e1 := run_settled_after_fulfillment w1 input u1 u2 si1 r1 j1 s1
    hc1 hi1 hn1 hx1 hs1 hw1
  have e2 := run_settled_after_fulfillment w2 input v1 v2 si2 r2 j2 s2
    hc2 hi2 hn2 hx2 hs2 hw2
  exact ⟨e1, e2, by rw [e1, e2, hjournal]⟩

/-- C1 witness: `wHappy` and `wHappy2` differ exactly in the journal the
market returns (`[9]` versus `[8]`) yet both settle the value 4 computed from
the shared dry-run journal `[4]`. -/
theorem settled_value_independent_of_market_journal_witness :
    settledValues (run wHappy 4).2 = [fromBeBytes [4]] ∧
    settledValues (run wHappy2 4).2 = [fromBeBytes [4]] ∧
    settledValues (run wHappy 4).2 = settledValues (run wHappy2 4).2 :=
  settled_value_independent_of_market_journal wHappy wHappy2 4 10 10 11 11
    { segments := [1], journal := [4] } { segments := [1], journal := [4] }
    77 77 [9] [8] [5] [5]
    (by decide) (by decide) (by decide) (by decide) (by decide) (by decide)
    (by decide) (by decide) (by decide) (by decide) (by decide)
    (by decide) (by decide) (by decide)

/-- C3 counterexample: in the fully successful concrete world `wHappy` the
settled value is 4, the read-back `get` returns 7 ≠ 4, the read-back call is
performed, and yet `run` returns success — no mismatch error is surfaced. -/
theorem run_ignores_readback_mismatch :
    (run wHappy 4).1 = .ok () ∧
    wHappy.getResult = .ok 7 ∧
    settledValues (run wHappy 4).2 = [4] ∧
    (7 : Nat) ≠ 4 ∧
    Event.readBackCall ∈ (run wHappy 4).2 := by
  refine ⟨by decide, by decide, by decide, by decide, by decide⟩

/-- Helper: with no caller deadline the modelled fulfillment wait never
returns `DeadlineExceeded`. -/
theorem wait_none_not_deadlineExceeded (m : MarketBehavior) (p : Nat) :
    waitForRequestFulfillment m p none ≠ .error .deadlineExceeded := by
  unfold waitForRequestFulfillment
  split
  · split <;> simp
  · simp

/-- Helper: every event of a `run` trace is well-formed, and the run never
surfaces a `DeadlineExceeded` wait outcome. -/
theorem run_wf (w : World) (input : Nat) :
    ((run w input).2.all (eventWellFormed input) = true) ∧
    (run w input).1 ≠ .error (.wait .deadlineExceeded) := by
  rcases hc : w.clientResult with ec | u
  · constructor <;> simp [run, hc]
  · rcases hi : w.uploadImageResult with ec | u1
    · constructor <;> simp [run, hc, hi, eventWellFormed]
    · rcases hn : w.uploadInputResult with ec | u2
      · constructor <;> simp [run, hc, hi, hn, eventWellFormed]
      · rcases hx : w.executeResult IS_EVEN_ELF (abiEncodeU256 input) with ec | si
        · constructor <;> simp [run, hc, hi, hn, hx, eventWellFormed]
        · rcases hs : w.submitResult with ec | rid
          · constructor <;> simp [run, hc, hi, hn, hx, hs, eventWellFormed]
          · rcases hwv : waitForRequestFulfillment w.market 5 none with ew | pr
            · have hne : ew ≠ .deadlineExceeded := by
                intro h
                exact wait_none_not_deadlineExceeded w.market 5 (h ▸ hwv)
              constructor <;> simp [run, hc, hi, hn, hx, hs, hwv, eventWellFormed, hne]
            · obtain ⟨j, s⟩ := pr
              rcases hd : w.sendResult with ec | h
              · constructor <;> simp [run, hc, hi, hn, hx, hs, hwv, hd, eventWellFormed]
              · rcases hv : w.watchResult with ec | uu
                · constructor <;>
                    simp [run, hc, hi, hn, hx, hs, hwv, hd, hv, eventWellFormed]
                · rcases hg : w.getResult with ec | v <;> constructor <;>
                    simp [run, hc, hi, hn, hx, hs, hwv, hd, hv, hg, eventWellFormed]

/-- C2: no settlement-phase call (building, broadcasting, or confirming the
consumer transaction) is performed in a run whose fulfillment wait fails;
in particular when all earlier phases succeed and the wait fails (e.g. the
request expired), the run terminates with exactly that error. -/
theorem no_settlement_before_fulfillment (w : World) (input : Nat) (e : WaitError)
    (hw : waitForRequestFulfillment w.market 5 none = .error e) :
    (run w input).2.filter Event.isSettlementPhase = [] ∧
    (∀ u1 u2 si rid, w.clientResult = .ok () → w.uploadImageResult = .ok u1 →
      w.uploadInputResult = .ok u2 →
      w.executeResult IS_EVEN_ELF (abiEncodeU256 input) = .ok si →
      w.submitResult = .ok rid → (run w input).1 = .error (.wait e)) := by
  constructor
  · rcases hc : w.clientResult with ec | u
    · simp [run, hc]
    · rcases hi : w.uploadImageResult with ec | u1
      · simp [run, hc, hi, Event.isSettlementPhase]
      · rcases hn : w.uploadInputResult with ec | u2
        · simp [run, hc, hi, hn, Event.isSettlementPhase]
        · rcases hx : w.executeResult IS_EVEN_ELF (abiEncodeU256 input) with ec | si
          · simp [run, hc, hi, hn, hx, Event.isSettlementPhase]
          · rcases hs : w.submitResult with ec | rid
            · simp [run, hc, hi, hn, hx, hs, Event.isSettlementPhase]
            · simp [run, hc, hi, hn, hx, hs, hw, Event.isSettlementPhase]
  · intro u1 u2 si rid hc hi hn hx hs
    simp [run, hc, hi, hn, hx, hs, hw]

/-- C2 witness: in the concrete world `wExpired` the request is never
fulfilled, the wait returns `Expired`, the run terminates with that error,
and its trace contains no settlement-phase call. -/
theorem no_settlement_before_fulfillment_witness :
    (run wExpired 4).2.filter Event.isSettlementPhase = [] ∧
    (run wExpired 4).1 = .error (.wait .expired) :=
  ⟨(no_settlement_before_fulfillment wExpired 4 .expired (by decide)).1,
   (no_settlement_before_fulfillment wExpired 4 .expired (by decide)).2
     10 11 { segments := [1], journal := [4] } 77
     (by decide) (by decide) (by decide) (by decide) (by decide)⟩

/-- C3 amended: after confirmation the run performs exactly one read-back
call against the consumer contract as its final step, logs the value read,
and returns success regardless of whether that value equals the settled
value — no mismatch error is surfaced. -/
theorem run_readback_not_checked (w : World) (input : Nat) (u1 u2 : Url)
    (si : SessionInfo) (rid : RequestId) (j s : Bytes) (h : TxHash) (v : Nat)
    (hc : w.clientResult = .ok ())
    (hi : w.uploadImageResult = .ok u1)
    (hn : w.uploadInputResult = .ok u2)
    (hx : w.executeResult IS_EVEN_ELF (abiEncodeU256 input) = .ok si)
    (hs : w.submitResult = .ok rid)
    (hw : waitForRequestFulfillment w.market 5 none = .ok (j, s))
    (hd : w.sendResult = .ok h)
    (hv : w.watchResult = .ok ())
    (hg : w.getResult = .ok v) :
    run w input = (.ok (),
      [.uploadImageCall, .uploadInputCall (abiEncodeU256 input),
       .executeCall IS_EVEN_ELF (abiEncodeU256 input),
       .submitCall (builtRequest w.digestFn u1 u2 si),
       .waitCall rid 5 none,
       .buildSetCall (fromBeBytes si.journal) s,
       .broadcastCall (fromBeBytes si.journal) s,
       .logTxHash h, .confirmCall h TX_TIMEOUT, .readBackCall]) ∧
    readBackCount (run w input).2 = 1 := by
  have hr : run w input = (.ok (),
      [.uploadImageCall, .uploadInputCall (abiEncodeU256 input),
       .executeCall IS_EVEN_ELF (abiEncodeU256 input),
       .submitCall (builtRequest w.digestFn u1 u2 si),
       .waitCall rid 5 none,
       .buildSetCall (fromBeBytes si.journal) s,
       .broadcastCall (fromBeBytes si.journal) s,
       .logTxHash h, .confirmCall h TX_TIMEOUT, .readBackCall]) := by
    simp [run, hc, hi, hn, hx, hs, hw, hd, hv, hg]
  refine ⟨hr, ?_⟩
  rw [hr]
  simp [readBackCount]

/-- C3 amended witness: in `wHappy`, where the read value 7 differs from the
settled value 4, the run still returns success after one read-back call. -/
theorem run_readback_not_checked_witness :
    run wHappy 4 = (.ok (),
      [.uploadImageCall, .uploadInputCall (abiEncodeU256 4),
       .executeCall IS_EVEN_ELF (abiEncodeU256 4),
       .submitCall (builtRequest wHappy.digestFn 10 11 { segments := [1], journal := [4] }),
       .waitCall 77 5 none,
       .buildSetCall (fromBeBytes [4]) [5],
       .broadcastCall (fromBeBytes [4]) [5],
       .logTxHash 42, .confirmCall 42 TX_TIMEOUT, .readBackCall]) ∧
    readBackCount (run wHappy 4).2 = 1 :=
  run_readback_not_checked wHappy 4 10 11 { segments := [1], journal := [4] }
    77 [9] [5] 42 7
    (by decide) (by decide) (by decide) (by decide) (by decide) (by decide)
    (by decide) (by decide) (by decide)

/-- C4 counterexample: in the concrete world `wExecFail` the dry-run
estimation fails, yet both artifact uploads have already been performed —
the run does not abort before network spend. -/
theorem estimation_failure_after_uploads :
    (run wExecFail 4).1 = .error (.execute "dry run failed") ∧
    Event.uploadImageCall ∈ (run wExecFail 4).2 ∧
    Event.uploadInputCall (abiEncodeU256 4) ∈ (run wExecFail 4).2 := by
  refine ⟨by decide, by decide, by decide⟩

/-- C4 amended: if the dry-run estimation fails, the run terminates with the
estimation error having performed only the two artifact uploads (which the
code issues before the dry run) and the failed dry run itself: no request
submission, no fulfillment wait, and no on-chain transaction occurs after
the estimation failure. -/
theorem run_aborts_on_estimation_failure (w : World) (input : Nat) (u1 u2 : Url)
    (e : String)
    (hc : w.clientResult = .ok ())
    (hi : w.uploadImageResult = .ok u1)
    (hn : w.uploadInputResult = .ok u2)
    (hx : w.executeResult IS_EVEN_ELF (abiEncodeU256 input) = .error e) :
    run w input = (.error (.execute e),
      [.uploadImageCall, .uploadInputCall (abiEncodeU256 input),
       .executeCall IS_EVEN_ELF (abiEncodeU256 input)]) := by
  simp [run, hc, hi, hn, hx]

/-- C4 amended witness at the concrete world `wExecFail`. -/
theorem run_aborts_on_estimation_failure_witness :
    run wExecFail 4 = (.error (.execute "dry run failed"),
      [.uploadImageCall, .uploadInputCall (abiEncodeU256 4),
       .executeCall IS_EVEN_ELF (abiEncodeU256 4)]) :=
  run_aborts_on_estimation_failure wExecFail 4 10 11 "dry run failed"
    (by decide) (by decide) (by decide) (by decide)

/-- C5 counterexample: the two concrete worlds `wConfirmTimeoutA` and
`wConfirmTimeoutB` broadcast transactions with different hashes (42 and 43)
and both time out in confirmation, yet the resulting errors are identical —
so the confirmation-timeout error cannot include the transaction hash; the
hash only appears in the log event emitted at broadcast time. -/
theorem confirm_error_lacks_tx_hash :
    (run wConfirmTimeoutA 4).1 =
      .error (.confirm "failed to confirm tx" "watch timed out") ∧
    (run wConfirmTimeoutB 4).1 = (run wConfirmTimeoutA 4).1 ∧
    wConfirmTimeoutA.sendResult = .ok 42 ∧
    wConfirmTimeoutB.sendResult = .ok 43 ∧
    Event.logTxHash 42 ∈ (run wConfirmTimeoutA 4).2 := by
  refine ⟨by decide, by decide, by decide, by decide, by decide⟩

/-- C5 amended: when confirmation exceeds the fixed timeout the run
terminates with the confirmation error (whose context is the static string
"failed to confirm tx" and which does not carry the transaction hash — the
hash is only logged at broadcast time), the transaction was broadcast
exactly once (never resubmitted), and the error is unchanged under any
other transaction hash. -/
theorem run_confirm_timeout_surfaced (w : World) (input : Nat) (u1 u2 : Url)
    (si : SessionInfo) (rid : RequestId) (j s : Bytes) (h : TxHash) (e : String)
    (hc : w.clientResult = .ok ())
    (hi : w.uploadImageResult = .ok u1)
    (hn : w.uploadInputResult = .ok u2)
    (hx : w.executeResult IS_EVEN_ELF (abiEncodeU256 input) = .ok si)
    (hs : w.submitResult = .ok rid)
    (hw : waitForRequestFulfillment w.market 5 none = .ok (j, s))
    (hd : w.sendResult = .ok h)
    (hv : w.watchResult = .error e) :
    run w input = (.error (.confirm "failed to confirm tx" e),
      [.uploadImageCall, .uploadInputCall (abiEncodeU256 input),
       .executeCall IS_EVEN_ELF (abiEncodeU256 input),
       .submitCall (builtRequest w.digestFn u1 u2 si),
       .waitCall rid 5 none,
       .buildSetCall (fromBeBytes si.journal) s,
       .broadcastCall (fromBeBytes si.journal) s,
       .logTxHash h, .confirmCall h TX_TIMEOUT]) ∧
    (settledValues (run w input).2).length = 1 ∧
    (∀ h' : TxHash,
      (run { w with sendResult := .ok h' } input).1 = (run w input).1) := by
  have hr : run w input = (.error (.confirm "failed to confirm tx" e),
      [.uploadImageCall, .uploadInputCall (abiEncodeU256 input),
       .executeCall IS_EVEN_ELF (abiEncodeU256 input),
       .submitCall (builtRequest w.digestFn u1 u2 si),
       .waitCall rid 5 none,
       .buildSetCall (fromBeBytes si.journal) s,
       .broadcastCall (fromBeBytes si.journal) s,
       .logTxHash h, .confirmCall h TX_TIMEOUT]) := by
    simp [run, hc, hi, hn, hx, hs, hw, hd, hv]
  refine ⟨hr, ?_, ?_⟩
  · rw [hr]
    simp [settledValues]
  · intro h'
    rw [hr]
    simp [run, hc, hi, hn, hx, hs, hw, hv]

/-- C5 amended witness at the concrete world `wConfirmTimeoutA`. -/
theorem run_confirm_timeout_surfaced_witness :
    run wConfirmTimeoutA 4 = (.error (.confirm "failed to confirm tx" "watch timed out"),
      [.uploadImageCall, .uploadInputCall (abiEncodeU256 4),
       .executeCall IS_EVEN_ELF (abiEncodeU256 4),
       .submitCall (builtRequest wConfirmTimeoutA.digestFn 10 11
         { segments := [1], journal := [4] }),
       .waitCall 77 5 none,
       .buildSetCall (fromBeBytes [4]) [5],
       .broadcastCall (fromBeBytes [4]) [5],
       .logTxHash 42, .confirmCall 42 TX_TIMEOUT]) ∧
    (settledValues (run wConfirmTimeoutA 4).2).length = 1 ∧
    (∀ h' : TxHash,
      (run { wConfirmTimeoutA with sendResult := .ok h' } 4).1 =
        (run wConfirmTimeoutA 4).1) :=
  run_confirm_timeout_surfaced wConfirmTimeoutA 4 10 11
    { segments := [1], journal := [4] } 77 [9] [5] 42 "watch timed out"
    (by decide) (by decide) (by decide) (by decide) (by decide) (by decide)
    (by decide) (by decide)

/-- C8: the submitted request's requirements bind the guest image id to a
digest-match predicate over the digest of the journal obtained by dry-running
that same image on that same input, and re-executing the same pair reproduces
the same predicate. -/
theorem requirements_bound_to_dry_run (w : World) (input : Nat) (u1 u2 : Url)
    (si : SessionInfo)
    (hc : w.clientResult = .ok ())
    (hi : w.uploadImageResult = .ok u1)
    (hn : w.uploadInputResult = .ok u2)
    (hx : w.executeResult IS_EVEN_ELF (abiEncodeU256 input) = .ok si) :
    submittedRequests (run w input).2 = [builtRequest w.digestFn u1 u2 si] ∧
    (builtRequest w.digestFn u1 u2 si).requirements =
      { imageId := IS_EVEN_ID
        predicate := Predicate.digestMatch (w.digestFn si.journal) } ∧
    (∀ si', w.executeResult IS_EVEN_ELF (abiEncodeU256 input) = .ok si' →
      Predicate.digestMatch (w.digestFn si'.journal) =
        Predicate.digestMatch (w.digestFn si.journal)) := by
  refine ⟨?_, rfl, ?_⟩
  · simp only [run, hc, hi, hn, hx]
    rcases hs : w.submitResult with ec | rid
    · simp [submittedRequests]
    · rcases hwv : waitForRequestFulfillment w.market 5 none with ew | ⟨j, s⟩
      · simp [submittedRequests]
      · rcases hd : w.sendResult with ec | h
        · simp [submittedRequests]
        · rcases hv : w.watchResult with ec | uu
          · simp [submittedRequests]
          · rcases hg : w.getResult with ec | v <;> simp [submittedRequests]
  · intro si' hx'
    have hsi : si = si' := by
      have := hx.symm.trans hx'
      simpa using this
    rw [hsi]

/-- C8 witness at the concrete world `wHappy`. -/
theorem requirements_bound_to_dry_run_witness :
    submittedRequests (run wHappy 4).2 =
      [builtRequest wHappy.digestFn 10 11 { segments := [1], journal := [4] }] :=
  (requirements_bound_to_dry_run wHappy 4 10 11 { segments := [1], journal := [4] }
    (by decide) (by decide) (by decide) (by decide)).1

/-- C9: every fulfillment wait the run performs uses a 5-second poll interval
and no caller deadline, the run can never surface a `DeadlineExceeded`
outcome, and with no deadline the modelled wait's only terminal outcomes are
fulfillment or expiry of the request's own offer timeout. -/
theorem run_wait_deadline_unreachable (w : World) (input : Nat) :
    (∀ rid p d, Event.waitCall rid p d ∈ (run w input).2 → p = 5 ∧ d = none) ∧
    (run w input).1 ≠ .error (.wait .deadlineExceeded) ∧
    (∀ m p, waitForRequestFulfillment m p none = .ok (m.journal, m.sealBytes) ∨
      waitForRequestFulfillment m p none = .error .expired) := by
  refine ⟨?_, (run_wf w input).2, ?_⟩
  · intro rid p d hmem
    have hall := (run_wf w input).1
    rw [List.all_eq_true] at hall
    have h2 := hall _ hmem
    simpa [eventWellFormed] using h2
  · intro m p
    unfold waitForRequestFulfillment
    split
    · split
      · left; rfl
      · right; rfl
    · right; rfl

/-- C9 witness: the wait call recorded in the trace of `wHappy` has poll
interval 5 and no deadline, and the run result is not `DeadlineExceeded`. -/
theorem run_wait_deadline_unreachable_witness :
    ((5 : Nat) = 5 ∧ (none : Option Nat) = none) ∧
    (run wHappy 4).1 ≠ .error (.wait .deadlineExceeded) :=
  ⟨(run_wait_deadline_unreachable wHappy 4).1 77 5 none (by decide),
   (run_wait_deadline_unreachable wHappy 4).2.1⟩

/-- C10: any input bytes the run uploads to storage and any bytes it feeds to
the dry-run estimator are exactly the ABI encoding of the caller's input (and
the estimator always runs the guest ELF), and a run whose oracles all succeed
performs both of those calls. -/
theorem input_bytes_agree (w : World) (input : Nat) :
    (∀ b, Event.uploadInputCall b ∈ (run w input).2 → b = abiEncodeU256 input) ∧
    (∀ im b, Event.executeCall im b ∈ (run w input).2 →
      im = IS_EVEN_ELF ∧ b = abiEncodeU256 input) ∧
    (∀ u1 u2 si rid j s h v, w.clientResult = .ok () →
      w.uploadImageResult = .ok u1 → w.uploadInputResult = .ok u2 →
      w.executeResult IS_EVEN_ELF (abiEncodeU256 input) = .ok si →
      w.submitResult = .ok rid →
      waitForRequestFulfillment w.market 5 none = .ok (j, s) →
      w.sendResult = .ok h → w.watchResult = .ok () → w.getResult = .ok v →
      Event.uploadInputCall (abiEncodeU256 input) ∈ (run w input).2 ∧
      Event.executeCall IS_EVEN_ELF (abiEncodeU256 input) ∈ (run w input).2) := by
  refine ⟨?_, ?_, ?_⟩
  · intro b hmem
    have hall := (run_wf w input).1
    rw [List.all_eq_true] at hall
    have h2 := hall _ hmem
    simpa [eventWellFormed] using h2
  · intro im b hmem
    have hall := (run_wf w input).1
    rw [List.all_eq_true] at hall
    have h2 := hall _ hmem
    simpa [eventWellFormed] using h2
  · intro u1 u2 si rid j s h v hc hi hn hx hs hw hd hv hg
    constructor <;> simp [run, hc, hi, hn, hx, hs, hw, hd, hv, hg]

/-- C10 witness: in `wHappy` both the input upload and the dry run are
performed with the ABI encoding of the input 4. -/
theorem input_bytes_agree_witness :
    Event.uploadInputCall (abiEncodeU256 4) ∈ (run wHappy 4).2 ∧
    Event.executeCall IS_EVEN_ELF (abiEncodeU256 4) ∈ (run wHappy 4).2 :=
  (input_bytes_agree wHappy 4).2.2 10 11 { segments := [1], journal := [4] }
    77 [9] [5] 42 7
    (by decide) (by decide) (by decide) (by decide) (by decide) (by decide)
    (by decide) (by decide) (by decide)

end Boundless
